import Mathlib

/-!
Verification development for the fission-workflows execution engine.

This file gives a shallow embedding, in Lean 4, of the invocation
controller (`pkg/controller/invocation.go`) and of the Fission function
runtime adapter (the `fnenv/fission` package), and proves properties of
the embedded code.

Conventions of the embedding:
* Go `time.Time`/`time.Duration` values are modelled as integer
  nanosecond counts (`Nat` for absolute instants, `Int` where a duration
  can be negative).
* Go `nil`-able pointers are modelled as `Option`.
* Go maps used as sets or association maps are modelled as `List`s with
  explicit membership/lookup, so every definition is executable.
* Effects of `executor.Submit` are modelled by returning the ordered
  list of submitted executor tasks; the executor acceptance decision
  (backpressure) is an oracle function in the environment.
-/

namespace FissionWorkflows

/-- A typed value of the engine. Only the distinction relevant to the
controller is modelled: a value either is an expression (carrying its
source text) or a plain literal. -/
inductive TypedValue where
  | lit (s : String)
  | expression (e : String)
deriving DecidableEq, Repr

/-- Modelled from the spec (section 3, missing `pkg/types`): the status
enum shared by invocations and task invocations:
Scheduled, InProgress, Succeeded, Failed, Aborted. -/
inductive InvStatus where
  | scheduled
  | inProgress
  | succeeded
  | failed
  | aborted
deriving DecidableEq, Repr

/-- Modelled from the spec (section 3, missing `pkg/types`):
a status is terminal (Go `Status.Finished()`) iff it is Succeeded,
Failed or Aborted. -/
def InvStatus.finished : InvStatus → Bool
  | .succeeded => true
  | .failed => true
  | .aborted => true
  | _ => false

/-- Modelled from the spec (missing `pkg/types`): Go `Status.Successful()`
holds exactly for the Succeeded status. -/
def InvStatus.successful : InvStatus → Bool
  | .succeeded => true
  | _ => false

/-- Printed form of the status, as in the generated Go enum. -/
def InvStatus.str : InvStatus → String
  | .scheduled => "SCHEDULED"
  | .inProgress => "IN_PROGRESS"
  | .succeeded => "SUCCEEDED"
  | .failed => "FAILED"
  | .aborted => "ABORTED"

/-- The part of a workflow definition the controller reads: the
designated output task id (`wf.Spec.OutputTask`; the empty string means
none is set, as in Go). -/
structure Workflow where
  outputTask : String
deriving DecidableEq, Repr

/-- Per-task run state inside an invocation (`invocation.Status.Tasks`). -/
structure TaskState where
  status : InvStatus
deriving DecidableEq, Repr

/-- The part of a `types.WorkflowInvocation` read by
`InvocationController.Eval`:
* `id` — the invocation id (`invocation.ID()`);
* `workflow` — the embedded workflow (`invocation.Workflow()`), `none`
  when absent;
* `status` — the invocation status;
* `specDeadline` — the parsed `invocation.Spec.Deadline` in ns, `none`
  when missing or unparsable (`ptypes.Timestamp` error);
* `createdAt` — the parsed `invocation.Metadata.CreatedAt` in ns, `none`
  when missing or unparsable;
* `taskIDs` — the ids returned by `invocation.Tasks()`;
* `taskStates` — the association map `invocation.Status.Tasks`. -/
structure WorkflowInvocation where
  id : String
  workflow : Option Workflow
  status : InvStatus
  specDeadline : Option Nat
  createdAt : Option Nat
  taskIDs : List String
  taskStates : List (String × TaskState)
deriving DecidableEq, Repr

/-- The entity carried by a controller event (`processValue.Updated`):
either a `WorkflowInvocation` or some other entity type (whose Go type
name is recorded for the error message). -/
inductive Entity where
  | invocation (wi : WorkflowInvocation)
  | other (typeName : String)
deriving DecidableEq, Repr

/-- What a submitted executor task does when applied, recorded
symbolically: fail or complete the invocation through the invocation
API, or prewarm / run a workflow task through the task API. -/
inductive ApplyAction where
  | failInvocation (invocationID : String) (errMsg : String)
  | completeInvocation (invocationID : String)
      (output : Option TypedValue) (outputHeaders : Option TypedValue)
  | prewarmTask (taskID : String)
  | runTask (taskID : String)
deriving DecidableEq, Repr

/-- `executor.Task`: id, group id (the invocation id) and the symbolic
apply action. -/
structure ExecutorTask where
  taskID : String
  groupID : String
  apply : ApplyAction
deriving DecidableEq, Repr

/-- `ctrl.Result`: `Success`, `Done` or `Err` (carrying the message). -/
inductive CtrlResult where
  | success (msg : String)
  | done (msg : String)
  | err (errMsg : String)
deriving DecidableEq, Repr

/-- The mutable fields of `InvocationController` that `Eval` and
`execTask` touch: the scheduled-task set (`sheduledTasks`), the
started-task set (`startedTasks`) and the consecutive error count. -/
structure CtrlState where
  scheduledTasks : List String
  startedTasks : List String
  errorCount : Nat
deriving DecidableEq, Repr

/-- A `Prepare` action of a schedule, with the expected-at time (ns). -/
structure PrepareAction where
  taskID : String
  expectedAt : Nat
deriving DecidableEq, Repr

/-- A `Run` action of a schedule. -/
structure RunAction where
  taskID : String
deriving DecidableEq, Repr

/-- A `scheduler.Schedule`: optional abort reason, prepare actions and
run actions. -/
structure Schedule where
  abort : Option String
  prepareTasks : List PrepareAction
  runTasks : List RunAction
deriving DecidableEq, Repr

/-- The environment of one `Eval` call: the current time, the scheduler
(`scheduler.Evaluate`, external `pkg/scheduler`), the executor
acceptance oracle (the boolean returned by `executor.Submit`), and the
output resolvers (`controlflow.ResolveTaskOutput` /
`ResolveTaskOutputHeaders`, external `pkg/types/typedvalues/controlflow`). -/
structure EvalEnv where
  now : Nat
  scheduler : WorkflowInvocation → List String → Except String Schedule
  accept : ExecutorTask → Bool
  resolveTaskOutput : String → WorkflowInvocation → Option TypedValue
  resolveTaskOutputHeaders : String → WorkflowInvocation → Option TypedValue

/-- `DefaultMaxRuntime = 10 * time.Minute`, in nanoseconds. -/
def DefaultMaxRuntime : Nat := 10 * 60 * 1000000000

/-- Set-insertion into the list modelling a Go `map[string]struct{}`. -/
def insertID (xs : List String) (x : String) : List String :=
  if x ∈ xs then xs else xs ++ [x]

/-- The `.fail` executor task submitted by `Eval` on a failing
precondition (`TaskID: invocation.ID() + ".fail"`). -/
def failTask (invID : String) (errMsg : String) : ExecutorTask :=
  { taskID := invID ++ ".fail", groupID := invID,
    apply := .failInvocation invID errMsg }

/-- `allTasksFinished` (invocation.go): every task id of the invocation
has a run state and that state is finished. -/
def allTasksFinished (wi : WorkflowInvocation) : Bool :=
  wi.taskIDs.all fun id =>
    match wi.taskStates.lookup id with
    | some t => t.status.finished
    | none => false

/-- The `success` flag computed inside `determineTaskOutput`
(invocation.go): every task id has a run state with Succeeded status (a
missing run state counts as unsuccessful, as nil-safe Go getters do). -/
def allTasksSuccessful (wi : WorkflowInvocation) : Bool :=
  wi.taskIDs.all fun id =>
    match wi.taskStates.lookup id with
    | some t => t.status.successful
    | none => false

/-- `determineTaskOutput` (invocation.go): when a designated output task
is set, resolve its output and output headers; if every task succeeded
return them, otherwise fail with the fixed error message. -/
def determineTaskOutput
    (resolveOut : String → WorkflowInvocation → Option TypedValue)
    (resolveHdr : String → WorkflowInvocation → Option TypedValue)
    (wi : WorkflowInvocation) :
    Except String (Option TypedValue × Option TypedValue) :=
  let success := allTasksSuccessful wi
  let outputTask := (wi.workflow.map Workflow.outputTask).getD ""
  let finalOutput :=
    if outputTask ≠ "" then resolveOut outputTask wi else none
  let finalOutputHeaders :=
    if outputTask ≠ "" then resolveHdr outputTask wi else none
  if success then .ok (finalOutput, finalOutputHeaders)
  else .error "one or more tasks in the workflow have failed"

/-- The deadline used by `Eval`: the parsed spec deadline when readable,
else `createdAt + DefaultMaxRuntime` when `createdAt` is readable, else
none (which makes `Eval` fail with "failed to read deadline and
createdAt"). -/
def effectiveDeadline (wi : WorkflowInvocation) : Option Nat :=
  match wi.specDeadline with
  | some d => some d
  | none =>
    match wi.createdAt with
    | some c => some (c + DefaultMaxRuntime)
    | none => none

/-- The run-task executor task submitted for a scheduled run action
(`TaskID: fmt.Sprintf("%s.run.%s", ...)`). -/
def runSubmission (invID : String) (taskID : String) : ExecutorTask :=
  { taskID := invID ++ ".run." ++ taskID, groupID := invID,
    apply := .runTask taskID }

/-- The prewarm executor task submitted for a prepare action
(`TaskID: fmt.Sprintf("%s.prewarm.%s", ...)`). -/
def prewarmSubmission (invID : String) (taskID : String) : ExecutorTask :=
  { taskID := invID ++ ".prewarm." ++ taskID, groupID := invID,
    apply := .prewarmTask taskID }

/-- The tail of `Eval` after all preconditions passed (the
"Check if all tasks have finished" comment onward, invocation.go lines
150-231): completion handling, scheduler call, abort handling, prepare
and run submissions, and bookkeeping of `sheduledTasks`/`startedTasks`.
Returns (result, submitted executor tasks in order, new controller
state). -/
def evalPostPreconditions (env : EvalEnv) (st : CtrlState)
    (wi : WorkflowInvocation) :
    CtrlResult × List ExecutorTask × CtrlState :=
  if allTasksFinished wi then
    match determineTaskOutput env.resolveTaskOutput
        env.resolveTaskOutputHeaders wi with
    | .error e => (.err e, [failTask wi.id e], st)
    | .ok (out, hdrs) =>
      (.success "all tasks of the invocation have completed",
       [{ taskID := wi.id ++ ".success", groupID := wi.id,
          apply := .completeInvocation wi.id out hdrs }], st)
  else
    match env.scheduler wi st.scheduledTasks with
    | .error e => (.err e, [], st)
    | .ok schedule =>
      match schedule.abort with
      | some reason => (.err reason, [failTask wi.id reason], st)
      | none =>
        let prewarms := schedule.prepareTasks.map fun a =>
          prewarmSubmission wi.id a.taskID
        let newScheduled := schedule.runTasks.foldl
          (fun acc a => insertID acc a.taskID) st.scheduledTasks
        let st1 : CtrlState := { st with scheduledTasks := newScheduled }
        let runs := schedule.runTasks.map fun a =>
          runSubmission wi.id a.taskID
        let newStarted := schedule.runTasks.foldl
          (fun acc a =>
            if env.accept (runSubmission wi.id a.taskID) then
              insertID acc a.taskID
            else acc)
          st1.startedTasks
        let st2 : CtrlState := { st1 with startedTasks := newStarted }
        (.success ("scheduled execution of "
            ++ toString schedule.runTasks.length
            ++ " tasks and preparation of "
            ++ toString schedule.prepareTasks.length ++ " tasks"),
         prewarms ++ runs, st2)

/-- `InvocationController.Eval` (invocation.go lines 63-231). The
preconditions, in source order:
1. the entity is a `WorkflowInvocation` (else `Err`, no submission);
2. the invocation id matches the controller (else `Err`, no submission);
3. the workflow is embedded (else submit fail, `Err`);
4. the invocation is not terminal (else `Done`, no submission);
5. the deadline (or `createdAt`) is readable (else submit fail, `Err`);
6. the deadline has not elapsed (else submit fail "deadline exceeded",
   `Err`);
7. the error count is zero (`errorCount > 0` submits fail "error count
   exceeded" and returns `Err`).
After that control passes to `evalPostPreconditions`. -/
def Eval (env : EvalEnv) (invocationID : String) (st : CtrlState)
    (entity : Entity) : CtrlResult × List ExecutorTask × CtrlState :=
  match entity with
  | .other typeName =>
    (.err ("entity expected WorkflowInvocation, but was " ++ typeName),
     [], st)
  | .invocation wi =>
    if wi.id ≠ invocationID then
      (.err ("invocation ID expected " ++ invocationID ++ ", but was "
          ++ wi.id), [], st)
    else if wi.workflow = none then
      (.err "workflow is not present in the invocation",
       [failTask wi.id "workflow is not present in the invocation"], st)
    else if wi.status.finished then
      (.done ("invocation is in a terminal state ("
          ++ wi.status.str ++ ")"), [], st)
    else
      match effectiveDeadline wi with
      | none =>
        (.err "failed to read deadline and createdAt",
         [failTask wi.id "failed to read deadline and createdAt"], st)
      | some dl =>
        if env.now > dl then
          (.err "deadline exceeded",
           [failTask wi.id "deadline exceeded"], st)
        else if st.errorCount > 0 then
          (.err "error count exceeded",
           [failTask wi.id "error count exceeded"], st)
        else
          evalPostPreconditions env st wi

/-- The effect of `InvocationController.execTask` on the controller
state: after `taskAPI.Invoke` returns without engine error the task id
is deleted from `sheduledTasks` (invocation.go line 319); on any earlier
return or an Invoke error nothing is deleted. `execTask` runs only for
run submissions the executor accepted. -/
def execTaskBookkeeping (st : CtrlState) (taskID : String)
    (invokeOk : Bool) : CtrlState :=
  if invokeOk then
    { st with scheduledTasks := st.scheduledTasks.filter (· ≠ taskID) }
  else st

/-! ## Task output post-transformer (invocation.go lines 380-485) -/

/-- The fields of a task spec read by the output transformer: the
declared output value and output-headers value (`task.Spec.Output`,
`task.Spec.OutputHeaders`), `none` when not declared. -/
structure TaskSpecOut where
  output : Option TypedValue
  outputHeaders : Option TypedValue
deriving DecidableEq, Repr

/-- `types.TaskInvocationStatus`: status, output, output headers and the
carried error message. -/
structure TaskInvocationStatus where
  status : InvStatus
  output : Option TypedValue
  outputHeaders : Option TypedValue
  error : Option String
deriving DecidableEq, Repr

/-- The part of a `types.TaskInvocation` the transformer touches: the
task id, the embedded task spec (`ti.Spec.Task.Spec`) and the run
status. -/
structure TaskInvocation where
  taskID : String
  spec : TaskSpecOut
  status : TaskInvocationStatus
deriving DecidableEq, Repr

/-- Whether a typed value is an expression
(`tv.ValueType() == typedvalues.TypeExpression`). -/
def isExpression : TypedValue → Bool
  | .expression _ => true
  | _ => false

/-- The output-replacement half of `transformTaskRunOutputs`
(invocation.go lines 421-434), parameterized by the expression resolver
`resolveOut e cur`, which models `resolveOutput` (invocation.go lines
380-411): the missing `pkg/controller/expr` engine evaluates the
expression source `e` against a scope in which the current task output
`cur` is bound at Tasks[taskID].Output (modelled from the spec, section
4.5). Returns the (possibly fatally failed) error and the (mutated)
task invocation, mirroring Go in-place mutation. -/
def applyOutputTransform
    (resolveOut : String → Option TypedValue → Except String TypedValue)
    (ti : TaskInvocation) : Option String × TaskInvocation :=
  match ti.spec.output with
  | none => (none, ti)
  | some tv =>
    match tv with
    | .expression e =>
      match resolveOut e ti.status.output with
      | .error err => (some err, ti)
      | .ok r => (none, { ti with status := { ti.status with output := some r } })
    | .lit s =>
      (none, { ti with status := { ti.status with output := some (.lit s) } })

/-- The output-headers half of `transformTaskRunOutputs` (invocation.go
lines 436-450), parameterized by the resolver modelling
`resolveOutputHeaders` (current headers bound in the scope). -/
def applyOutputHeadersTransform
    (resolveHdr : String → Option TypedValue → Except String TypedValue)
    (ti : TaskInvocation) : Option String × TaskInvocation :=
  match ti.spec.outputHeaders with
  | none => (none, ti)
  | some tv =>
    match tv with
    | .expression e =>
      match resolveHdr e ti.status.outputHeaders with
      | .error err => (some err, ti)
      | .ok r =>
        (none, { ti with status := { ti.status with outputHeaders := some r } })
    | .lit s =>
      (none,
       { ti with status := { ti.status with outputHeaders := some (.lit s) } })

/-- `InvocationController.transformTaskRunOutputs` (invocation.go lines
413-453): a no-op on unsuccessful task invocations; otherwise replace
the run output with the task spec output (resolving it first when it is
an expression), then do the same for the output headers. The first
component is the returned error (`none` = Go nil); the second is the
task invocation after the in-place mutations performed so far. -/
def transformTaskRunOutputs
    (resolveOut : String → Option TypedValue → Except String TypedValue)
    (resolveHdr : String → Option TypedValue → Except String TypedValue)
    (ti : TaskInvocation) : Option String × TaskInvocation :=
  if ¬ ti.status.status.successful then (none, ti)
  else
    match applyOutputTransform resolveOut ti with
    | (some err, ti1) => (some err, ti1)
    | (none, ti1) => applyOutputHeadersTransform resolveHdr ti1

/-! ## Fission runtime adapter (fnenv/fission, src/unnamed/part_002) -/

/-- `time.Millisecond` in nanoseconds. -/
def timeMillisecond : Int := 1000000

/-- `provisionDuration = time.Duration(500) - time.Millisecond`
(part_002 line 44): `time.Duration(500)` is 500 nanoseconds, so this
constant is 500 ns − 1 ms = −999500 ns. -/
def provisionDuration : Int := 500 - timeMillisecond

/-- The instant at which `FunctionEnv.Notify` schedules the tap of the
function: `execAt := expectedAt.Add(-provisionDuration)` (part_002 line
169), with instants as integer nanoseconds. -/
def notifyExecAt (expectedAt : Int) : Int := expectedAt - provisionDuration

/-- Unwrapping of a typed value to the message string interpolated into
the Fission error (`typedvalues.Unwrap` then `%v` formatting; a nil
value formats as "<nil>"). -/
def unwrapMsg : Option TypedValue → String
  | some (.lit s) => s
  | some (.expression e) => e
  | none => "<nil>"

/-- The inputs determining one run of `FunctionEnv.Invoke` (part_002
lines 64-159): the outcome of each fallible stage in source order —
spec validation (`validate.TaskInvocationSpec`), request formatting
(`httpconv.FormatRequest`), the HTTP round-trip (`client.Do`), response
parsing (`httpconv.ParseResponse`) — and, when the round-trip happened,
the response status code, parsed output and parsed output headers. -/
structure FissionInvokeRun where
  validateErr : Option String
  formatErr : Option String
  transportErr : Option String
  parseErr : Option String
  statusCode : Nat
  output : Option TypedValue
  outputHeaders : Option TypedValue
deriving DecidableEq, Repr

/-- `FunctionEnv.Invoke` (part_002 lines 64-159): an error return
(engine error) for a failed validation, request-formatting, transport
or response-parsing stage; otherwise, for an HTTP status ≥ 400, a
Failed task-invocation status carrying the unwrapped output as error
message with nil engine error; otherwise a Succeeded status carrying
output and output headers. -/
def fissionInvoke (run : FissionInvokeRun) :
    Except String TaskInvocationStatus :=
  match run.validateErr with
  | some e => .error e
  | none =>
    match run.formatErr with
    | some e => .error e
    | none =>
      match run.transportErr with
      | some e => .error ("error for reqUrl: " ++ e)
      | none =>
        match run.parseErr with
        | some e => .error ("failed to parse output: " ++ e)
        | none =>
          if run.statusCode ≥ 400 then
            .ok { status := .failed, output := none, outputHeaders := none,
                  error := some ("fission function error: "
                    ++ unwrapMsg run.output) }
          else
            .ok { status := .succeeded, output := run.output,
                  outputHeaders := run.outputHeaders, error := none }

/-! ## Concrete fixtures used for closed evaluations -/

/-- An output resolver that resolves nothing (used in concrete
environments where no output task is involved). -/
def noopResolve : String → WorkflowInvocation → Option TypedValue :=
  fun _ _ => none

/-- Modelled from the spec (section 4.8, missing `pkg/scheduler`): a
concrete dependency-driven scheduler instance over the one-task
workflow with task id a — the task is Run-eligible iff it is not in the
already-scheduled set (subsequent cycles skip scheduled task ids). -/
def skipScheduler : WorkflowInvocation → List String → Except String Schedule :=
  fun _ scheduled =>
    .ok { abort := none, prepareTasks := [],
          runTasks := if "a" ∈ scheduled then [] else [{ taskID := "a" }] }

/-- A concrete evaluation environment at time 0 whose executor rejects
every submission (permanent backpressure). -/
def rejectAllEnv : EvalEnv :=
  { now := 0, scheduler := skipScheduler, accept := fun _ => false,
    resolveTaskOutput := noopResolve,
    resolveTaskOutputHeaders := noopResolve }

/-- The same environment but with every submission accepted. -/
def acceptAllEnv : EvalEnv :=
  { rejectAllEnv with accept := fun _ => true }

/-- The same environment observed at time 2000 ns. -/
def lateEnv : EvalEnv := { rejectAllEnv with now := 2000 }

/-- The initial controller state (fresh `InvocationController`). -/
def st0 : CtrlState :=
  { scheduledTasks := [], startedTasks := [], errorCount := 0 }

/-- A controller state after exactly one evaluation error. -/
def stOneError : CtrlState :=
  { scheduledTasks := [], startedTasks := [], errorCount := 1 }

/-- An in-progress invocation with a single not-yet-started task a and
a deadline of 1000 ns. -/
def wiOneTask : WorkflowInvocation :=
  { id := "inv", workflow := some { outputTask := "" },
    status := .inProgress, specDeadline := some 1000, createdAt := some 0,
    taskIDs := ["a"], taskStates := [("a", { status := .scheduled })] }

/-- A succeeded (terminal) invocation. -/
def wiTerminal : WorkflowInvocation :=
  { id := "inv", workflow := some { outputTask := "" },
    status := .succeeded, specDeadline := some 1000, createdAt := some 0,
    taskIDs := [], taskStates := [] }

/-- An invocation whose embedded workflow is missing. -/
def wiNoWorkflow : WorkflowInvocation :=
  { id := "inv", workflow := none,
    status := .inProgress, specDeadline := some 1000, createdAt := some 0,
    taskIDs := [], taskStates := [] }

/-- An in-progress invocation with an empty task list and no designated
output task. -/
def wiEmptyTasks : WorkflowInvocation :=
  { id := "inv", workflow := some { outputTask := "" },
    status := .inProgress, specDeadline := some 1000, createdAt := some 0,
    taskIDs := [], taskStates := [] }

/-- An in-progress invocation whose single task has finished with the
Failed status. -/
def wiFailedTask : WorkflowInvocation :=
  { id := "inv", workflow := some { outputTask := "" },
    status := .inProgress, specDeadline := some 1000, createdAt := some 0,
    taskIDs := ["a"], taskStates := [("a", { status := .failed })] }

/-- An in-progress invocation whose single task has succeeded. -/
def wiSucceededTask : WorkflowInvocation :=
  { id := "inv", workflow := some { outputTask := "" },
    status := .inProgress, specDeadline := some 1000, createdAt := some 0,
    taskIDs := ["a"], taskStates := [("a", { status := .succeeded })] }

/-- Modelled from the spec (section 4.5, missing `pkg/controller/expr`):
one admissible expression evaluation — an expression that appends the
character x to the current value bound at Tasks[taskID].Output in the
scope (expression evaluation is an arbitrary pure function of the
scope). -/
def appendResolver : String → Option TypedValue → Except String TypedValue :=
  fun _ cur => .ok (.lit (unwrapMsg cur ++ "x"))

/-- A resolver that fails on any expression (no expression expected). -/
def noResolver : String → Option TypedValue → Except String TypedValue :=
  fun e _ => .error ("unexpected expression: " ++ e)

/-- A successful task invocation whose task spec declares an expression
output. -/
def tiExprOut : TaskInvocation :=
  { taskID := "a",
    spec := { output := some (.expression "append"), outputHeaders := none },
    status := { status := .succeeded, output := some (.lit "a"),
                outputHeaders := none, error := none } }

/-- A successful task invocation whose task spec declares a literal
(non-expression) output. -/
def tiLitOut : TaskInvocation :=
  { taskID := "a",
    spec := { output := some (.lit "const"), outputHeaders := none },
    status := { status := .succeeded, output := some (.lit "a"),
                outputHeaders := none, error := none } }

/-- A concrete Fission `Invoke` run: every stage succeeds and the
function answers HTTP 500 with the body boom. -/
def run500 : FissionInvokeRun :=
  { validateErr := none, formatErr := none, transportErr := none,
    parseErr := none, statusCode := 500,
    output := some (.lit "boom"), outputHeaders := none }

/-! ## Theorems -/

/-- C2: `FunctionEnv.Notify` is claimed to schedule the tap exactly
500 ms before `expectedAt`. In the code `provisionDuration` is
`time.Duration(500) - time.Millisecond` = 500 ns − 1 ms = −999500 ns,
so the tap is scheduled 999500 ns (≈ 1 ms) AFTER `expectedAt`, not
500 ms before it: at `expectedAt = 0` the code yields `execAt = 999500`
while the claim requires `−500 ms = −500000000`. -/
theorem notify_tap_after_expected_at :
    provisionDuration = -999500
  ∧ notifyExecAt 0 = 999500
  ∧ notifyExecAt 0 ≠ 0 - 500 * timeMillisecond := by
  refine ⟨by decide, by decide, by decide⟩

/-- C3: with an executor under permanent backpressure (every `Submit`
rejected), evaluating the one-task invocation records task a in the
controller scheduled-task set even though its submission was rejected
(`startedTasks` stays empty), and the next evaluation — whose scheduler
skips already-scheduled ids, as the spec prescribes — submits nothing:
the rejected task is never re-dispatched. -/
theorem eval_rejected_run_not_retried :
    (Eval rejectAllEnv "inv" st0 (.invocation wiOneTask)).2.2.scheduledTasks
      = ["a"]
  ∧ (Eval rejectAllEnv "inv" st0 (.invocation wiOneTask)).2.2.startedTasks
      = []
  ∧ (Eval rejectAllEnv "inv"
        (Eval rejectAllEnv "inv" st0 (.invocation wiOneTask)).2.2
        (.invocation wiOneTask)).2.1 = [] := by
  refine ⟨by decide, by decide, by decide⟩

/-- Claim C1 counterexample: with an accumulated error count of exactly
1 — which per the claim has not exceeded the threshold of 1 and should
pass the precondition — `Eval` submits a fail task and returns the
"error count exceeded" error. -/
theorem eval_fails_at_error_count_one :
    Eval rejectAllEnv "inv" stOneError (.invocation wiOneTask)
      = (.err "error count exceeded",
         [failTask "inv" "error count exceeded"], stOneError) := by
  decide

/-- Claim C4 counterexample: when the entity-type precondition fires
(the entity is not a `WorkflowInvocation`), `Eval` returns the error
but submits no executor task at all — in particular no
`fail(invocationId)` task, contradicting the claim that every firing
precondition submits one. -/
theorem eval_entity_mismatch_no_fail_submission :
    Eval rejectAllEnv "inv" st0 (.other "aggregate")
      = (.err "entity expected WorkflowInvocation, but was aggregate",
         [], st0) := by
  decide

/-- Claim C9 counterexample: for a successful task invocation whose
task spec declares an expression output, the output post-transformer is
not idempotent — the second application re-evaluates the expression
against the already-transformed output (here an expression appending x
turns output a into ax, then axx). -/
theorem transform_not_idempotent_on_expression :
    (transformTaskRunOutputs appendResolver noResolver
        (transformTaskRunOutputs appendResolver noResolver tiExprOut).2).2
      ≠ (transformTaskRunOutputs appendResolver noResolver tiExprOut).2 := by
  decide

/-- C5: for every invocation whose status is terminal (Succeeded,
Failed or Aborted), an `Eval` of a matching event (matching id,
embedded workflow present) returns `Done`, submits no executor task and
leaves the controller state unchanged: the projected status cannot be
changed by the controller and the terminal state is never left. -/
theorem eval_terminal_done (env : EvalEnv) (cid : String) (st : CtrlState)
    (wi : WorkflowInvocation) (w : Workflow)
    (hid : wi.id = cid) (hwf : wi.workflow = some w)
    (hterm : wi.status.finished = true) :
    Eval env cid st (.invocation wi)
      = (.done ("invocation is in a terminal state ("
          ++ wi.status.str ++ ")"), [], st) := by
  subst hid
  simp [Eval, hwf, hterm]

/-- Claim C5 witness: the terminal fixture invocation evaluates to
`Done` with no submissions. -/
theorem eval_terminal_done_witness :
    Eval rejectAllEnv "inv" st0 (.invocation wiTerminal)
      = (.done "invocation is in a terminal state (SUCCEEDED)", [], st0) :=
  eval_terminal_done rejectAllEnv "inv" st0 wiTerminal
    { outputTask := "" } rfl rfl rfl

/-- C6: for every `Eval` of a matching, non-terminal invocation whose
effective deadline — the spec deadline, defaulting to
`createdAt + DefaultMaxRuntime` (10 min) when the spec deadline is
unreadable — lies strictly before the current time, the invocation is
failed with exactly "deadline exceeded": the only submission is the
fail task and the result, for EVERY environment (hence for every
scheduler), is the error, so the scheduler is never consulted and no
run or prewarm task is dispatched. -/
theorem eval_deadline_exceeded (env : EvalEnv) (cid : String)
    (st : CtrlState) (wi : WorkflowInvocation) (w : Workflow) (dl : Nat)
    (hid : wi.id = cid) (hwf : wi.workflow = some w)
    (hterm : wi.status.finished = false)
    (hdl : effectiveDeadline wi = some dl) (hnow : dl < env.now) :
    Eval env cid st (.invocation wi)
      = (.err "deadline exceeded",
         [failTask wi.id "deadline exceeded"], st) := by
  subst hid
  simp [Eval, hwf, hterm, hdl, hnow]

/-- Claim C6 witness: at time 2000 ns the fixture invocation with
deadline 1000 ns is failed with "deadline exceeded" and only the fail
task is submitted. -/
theorem eval_deadline_exceeded_witness :
    Eval lateEnv "inv" st0 (.invocation wiOneTask)
      = (.err "deadline exceeded",
         [failTask "inv" "deadline exceeded"], st0) :=
  eval_deadline_exceeded lateEnv "inv" st0 wiOneTask
    { outputTask := "" } 1000 rfl rfl rfl rfl (by decide)

/-- C7: for every matching, non-terminal invocation whose workflow has
an empty task list and no designated output task, and whose deadline
has not elapsed with a zero error count, `Eval` finds all tasks
finished and submits exactly one completion task that completes the
invocation with nil output and nil output headers, returning
`Success`. -/
theorem eval_empty_tasks_succeed (env : EvalEnv) (cid : String)
    (st : CtrlState) (wi : WorkflowInvocation) (w : Workflow) (dl : Nat)
    (hid : wi.id = cid) (hwf : wi.workflow = some w)
    (hout : w.outputTask = "")
    (hterm : wi.status.finished = false)
    (htasks : wi.taskIDs = [])
    (hdl : effectiveDeadline wi = some dl) (hnow : env.now ≤ dl)
    (hec : st.errorCount = 0) :
    Eval env cid st (.invocation wi)
      = (.success "all tasks of the invocation have completed",
         [{ taskID := wi.id ++ ".success", groupID := wi.id,
            apply := .completeInvocation wi.id none none }], st) := by
  subst hid
  simp [Eval, hwf, hterm, hdl, Nat.not_lt.mpr hnow, hec,
    evalPostPreconditions, allTasksFinished, htasks,
    determineTaskOutput, allTasksSuccessful, hout]

/-- Claim C7 witness: the fixture invocation with no tasks and no
output task completes with nil output. -/
theorem eval_empty_tasks_succeed_witness :
    Eval rejectAllEnv "inv" st0 (.invocation wiEmptyTasks)
      = (.success "all tasks of the invocation have completed",
         [{ taskID := "inv" ++ ".success", groupID := "inv",
            apply := .completeInvocation "inv" none none }], st0) :=
  eval_empty_tasks_succeed rejectAllEnv "inv" st0 wiEmptyTasks
    { outputTask := "" } 1000 rfl rfl rfl rfl rfl rfl (by decide) rfl

/-- C8: for every matching, non-terminal invocation, within deadline
and error budget, in which every task has finished: if at least one
task did not succeed, `Eval` fails the invocation with exactly
"one or more tasks in the workflow have failed" (the only submission is
that fail task, so no output is attached); if every task succeeded,
`Eval` submits the completion determined by `determineTaskOutput` and
returns `Success`. -/
theorem eval_all_finished_outcome (env : EvalEnv) (cid : String)
    (st : CtrlState) (wi : WorkflowInvocation) (w : Workflow) (dl : Nat)
    (hid : wi.id = cid) (hwf : wi.workflow = some w)
    (hterm : wi.status.finished = false)
    (hdl : effectiveDeadline wi = some dl) (hnow : env.now ≤ dl)
    (hec : st.errorCount = 0)
    (hfin : allTasksFinished wi = true) :
    (allTasksSuccessful wi = false →
      Eval env cid st (.invocation wi)
        = (.err "one or more tasks in the workflow have failed",
           [failTask wi.id "one or more tasks in the workflow have failed"],
           st))
  ∧ (allTasksSuccessful wi = true →
      ∃ out hdrs,
        determineTaskOutput env.resolveTaskOutput
            env.resolveTaskOutputHeaders wi = .ok (out, hdrs)
        ∧ Eval env cid st (.invocation wi)
            = (.success "all tasks of the invocation have completed",
               [{ taskID := wi.id ++ ".success", groupID := wi.id,
                  apply := .completeInvocation wi.id out hdrs }], st)) := by
  subst hid
  constructor
  · intro hsucc
    simp [Eval, hwf, hterm, hdl, Nat.not_lt.mpr hnow, hec,
      evalPostPreconditions, hfin, determineTaskOutput, hsucc]
  · intro hsucc
    refine ⟨if (wi.workflow.map Workflow.outputTask).getD "" ≠ ""
        then env.resolveTaskOutput
          ((wi.workflow.map Workflow.outputTask).getD "") wi else none,
      if (wi.workflow.map Workflow.outputTask).getD "" ≠ ""
        then env.resolveTaskOutputHeaders
          ((wi.workflow.map Workflow.outputTask).getD "") wi else none,
      ?_, ?_⟩
    · simp [determineTaskOutput, hsucc]
    · simp [Eval, hwf, hterm, hdl, Nat.not_lt.mpr hnow, hec,
        evalPostPreconditions, hfin, determineTaskOutput, hsucc]

/-- Claim C8 witness: the fixture invocation whose single task failed
is failed with exactly the claimed message. -/
theorem eval_all_finished_outcome_witness :
    Eval rejectAllEnv "inv" st0 (.invocation wiFailedTask)
      = (.err "one or more tasks in the workflow have failed",
         [failTask "inv" "one or more tasks in the workflow have failed"],
         st0) :=
  (eval_all_finished_outcome rejectAllEnv "inv" st0 wiFailedTask
    { outputTask := "" } 1000 rfl rfl rfl rfl (by decide) rfl rfl).1 rfl

/-- C1 (amended): the error-count precondition of `Eval` passes only
when the controller's accumulated error count is exactly 0 — the
threshold is 0, not 1. For a matching, non-terminal invocation within
its deadline: any error count greater than 0 makes `Eval` submit a fail
task and return the "error count exceeded" error, while with an error
count of 0 the precondition passes and evaluation continues with the
post-precondition phase. -/
theorem eval_error_count_threshold_zero (env : EvalEnv) (cid : String)
    (st : CtrlState) (wi : WorkflowInvocation) (w : Workflow) (dl : Nat)
    (hid : wi.id = cid) (hwf : wi.workflow = some w)
    (hterm : wi.status.finished = false)
    (hdl : effectiveDeadline wi = some dl) (hnow : env.now ≤ dl) :
    (0 < st.errorCount →
      Eval env cid st (.invocation wi)
        = (.err "error count exceeded",
           [failTask wi.id "error count exceeded"], st))
  ∧ (st.errorCount = 0 →
      Eval env cid st (.invocation wi) = evalPostPreconditions env st wi) := by
  subst hid
  constructor
  · intro hec
    simp [Eval, hwf, hterm, hdl, Nat.not_lt.mpr hnow, hec]
  · intro hec
    simp [Eval, hwf, hterm, hdl, Nat.not_lt.mpr hnow, hec]

/-- Claim C1 witness: with a zero error count the fixture invocation
passes the error-count precondition and evaluation proceeds to the
post-precondition phase. -/
theorem eval_error_count_threshold_zero_witness :
    Eval rejectAllEnv "inv" st0 (.invocation wiOneTask)
      = evalPostPreconditions rejectAllEnv st0 wiOneTask :=
  (eval_error_count_threshold_zero rejectAllEnv "inv" st0 wiOneTask
    { outputTask := "" } 1000 rfl rfl rfl rfl (by decide)).2 rfl

/-- C4 (amended): each firing `Eval` precondition among missing
embedded workflow, unreadable deadline and createdAt, elapsed deadline,
and exceeded error budget submits a `fail(invocationId)` task to the
executor and returns the error; the two earlier preconditions (entity
is not a `WorkflowInvocation`, mismatched invocation id) only return
the error, submitting nothing; and the terminal-state check returns
`Done` without submitting anything. -/
theorem eval_preconditions_submit_fail (env : EvalEnv) (st : CtrlState)
    (wi : WorkflowInvocation) :
    (wi.workflow = none →
      Eval env wi.id st (.invocation wi)
        = (.err "workflow is not present in the invocation",
           [failTask wi.id "workflow is not present in the invocation"], st))
  ∧ (∀ w, wi.workflow = some w → wi.status.finished = false →
      effectiveDeadline wi = none →
      Eval env wi.id st (.invocation wi)
        = (.err "failed to read deadline and createdAt",
           [failTask wi.id "failed to read deadline and createdAt"], st))
  ∧ (∀ w dl, wi.workflow = some w → wi.status.finished = false →
      effectiveDeadline wi = some dl → dl < env.now →
      Eval env wi.id st (.invocation wi)
        = (.err "deadline exceeded",
           [failTask wi.id "deadline exceeded"], st))
  ∧ (∀ w dl, wi.workflow = some w → wi.status.finished = false →
      effectiveDeadline wi = some dl → env.now ≤ dl → 0 < st.errorCount →
      Eval env wi.id st (.invocation wi)
        = (.err "error count exceeded",
           [failTask wi.id "error count exceeded"], st))
  ∧ (∀ typeName,
      Eval env wi.id st (.other typeName)
        = (.err ("entity expected WorkflowInvocation, but was " ++ typeName),
           [], st))
  ∧ (∀ cid, wi.id ≠ cid →
      Eval env cid st (.invocation wi)
        = (.err ("invocation ID expected " ++ cid ++ ", but was " ++ wi.id),
           [], st))
  ∧ (∀ w, wi.workflow = some w → wi.status.finished = true →
      Eval env wi.id st (.invocation wi)
        = (.done ("invocation is in a terminal state ("
            ++ wi.status.str ++ ")"), [], st)) := by
  refine ⟨fun hwf => ?_, fun w hwf hterm hdl => ?_,
    fun w dl hwf hterm hdl hnow => ?_,
    fun w dl hwf hterm hdl hnow hec => ?_, fun typeName => rfl,
    fun cid hne => ?_, fun w hwf hterm => ?_⟩
  · simp [Eval, hwf]
  · simp [Eval, hwf, hterm, hdl]
  · simp [Eval, hwf, hterm, hdl, hnow]
  · simp [Eval, hwf, hterm, hdl, Nat.not_lt.mpr hnow, hec]
  · simp [Eval, hne]
  · simp [Eval, hwf, hterm]

/-- Claim C4 witness: the fixture invocation with a missing embedded
workflow is failed through a submitted fail task. -/
theorem eval_preconditions_submit_fail_witness :
    Eval rejectAllEnv "inv" st0 (.invocation wiNoWorkflow)
      = (.err "workflow is not present in the invocation",
         [failTask "inv" "workflow is not present in the invocation"],
         st0) :=
  (eval_preconditions_submit_fail rejectAllEnv st0 wiNoWorkflow).1 rfl

/-- C9 (amended): the task output post-transformer is idempotent for
every task invocation whose task spec declares no expression output and
no expression output headers (absent or literal values): applying
`transformTaskRunOutputs` twice yields the same result as applying it
once. (When an expression output is declared, the second application
re-evaluates the expression against the already-transformed output, so
idempotence holds only for resolvers that are themselves idempotent.) -/
theorem transform_idempotent_without_expressions
    (resolveOut resolveHdr : String → Option TypedValue → Except String TypedValue)
    (ti : TaskInvocation)
    (hout : ∀ e, ti.spec.output ≠ some (.expression e))
    (hhdr : ∀ e, ti.spec.outputHeaders ≠ some (.expression e)) :
    transformTaskRunOutputs resolveOut resolveHdr
        (transformTaskRunOutputs resolveOut resolveHdr ti).2
      = transformTaskRunOutputs resolveOut resolveHdr ti := by
  by_cases hs : ti.status.status.successful = true
  · rcases ho : ti.spec.output with _ | tv
    · rcases hh : ti.spec.outputHeaders with _ | tv2
      · simp [transformTaskRunOutputs, applyOutputTransform,
          applyOutputHeadersTransform, hs, ho, hh]
      · cases tv2 with
        | lit s2 =>
          simp [transformTaskRunOutputs, applyOutputTransform,
            applyOutputHeadersTransform, hs, ho, hh]
        | expression e2 => exact absurd hh (hhdr e2)
    · cases tv with
      | lit s =>
        rcases hh : ti.spec.outputHeaders with _ | tv2
        · simp [transformTaskRunOutputs, applyOutputTransform,
            applyOutputHeadersTransform, hs, ho, hh]
        · cases tv2 with
          | lit s2 =>
            simp [transformTaskRunOutputs, applyOutputTransform,
              applyOutputHeadersTransform, hs, ho, hh]
          | expression e2 => exact absurd hh (hhdr e2)
      | expression e => exact absurd ho (hout e)
  · simp [transformTaskRunOutputs, hs]

/-- Claim C9 witness: the transformer is idempotent on the fixture task
invocation with a literal declared output. -/
theorem transform_idempotent_witness :
    transformTaskRunOutputs appendResolver noResolver
        (transformTaskRunOutputs appendResolver noResolver tiLitOut).2
      = transformTaskRunOutputs appendResolver noResolver tiLitOut :=
  transform_idempotent_without_expressions appendResolver noResolver
    tiLitOut (by intro e h; simp [tiLitOut] at h)
    (by intro e h; simp [tiLitOut] at h)

/-- C10: for every run of the Fission runtime `Invoke`: when all
engine-controlled stages (spec validation, request formatting, HTTP
transport, response parsing) succeed and the function answers with an
HTTP status ≥ 400, the result is a Failed task-invocation status
carrying the unwrapped response as error message, with nil engine
error; when the status is < 400 the result is Succeeded with the parsed
output; and an engine error is returned only when one of those
engine-controlled stages failed — never for an application failure. -/
theorem fission_invoke_error_discipline (run : FissionInvokeRun) :
    (run.validateErr = none → run.formatErr = none →
      run.transportErr = none → run.parseErr = none →
      400 ≤ run.statusCode →
      fissionInvoke run
        = .ok { status := .failed, output := none, outputHeaders := none,
                error := some ("fission function error: "
                  ++ unwrapMsg run.output) })
  ∧ (run.validateErr = none → run.formatErr = none →
      run.transportErr = none → run.parseErr = none →
      run.statusCode < 400 →
      fissionInvoke run
        = .ok { status := .succeeded, output := run.output,
                outputHeaders := run.outputHeaders, error := none })
  ∧ (∀ e, fissionInvoke run = .error e →
      run.validateErr ≠ none ∨ run.formatErr ≠ none ∨
      run.transportErr ≠ none ∨ run.parseErr ≠ none) := by
  refine ⟨fun h1 h2 h3 h4 h5 => ?_, fun h1 h2 h3 h4 h5 => ?_,
    fun e he => ?_⟩
  · simp [fissionInvoke, h1, h2, h3, h4, h5]
  · simp [fissionInvoke, h1, h2, h3, h4, Nat.not_le.mpr h5]
  · by_contra hc
    push_neg at hc
    obtain ⟨hv, hf, ht, hp⟩ := hc
    rcases le_or_lt 400 run.statusCode with h5 | h5
    · simp [fissionInvoke, hv, hf, ht, hp, h5] at he
    · simp [fissionInvoke, hv, hf, ht, hp, Nat.not_le.mpr h5] at he

/-- Claim C10 witness: a run in which every stage succeeds and the
function answers HTTP 500 with body boom yields a Failed status with a
carried message and no engine error. -/
theorem fission_invoke_error_discipline_witness :
    fissionInvoke run500
      = .ok { status := .failed, output := none, outputHeaders := none,
              error := some ("fission function error: "
                ++ unwrapMsg run500.output) } :=
  (fission_invoke_error_discipline run500).1 rfl rfl rfl rfl (by decide)

end FissionWorkflows
